import Mathlib

/-!
Verification development for the neko-rooms Room Orchestration Engine.

The engine code is embedded shallowly:
* `config.Room` follows internal/config (the Room configuration struct).
* namespace `room` follows the room manager (package room): `listContainers`,
  `inspectContainer`, `ListRooms`, `Create`, `Get`, `Update` over an explicit
  docker-runtime state (`DockerState`, a list of containers).
* namespace `api` follows internal/api/rooms.go: `roomsList`, `roomCreate`,
  `roomRecreate`, `roomGetEntry`. The room manager those handlers consume is
  not part of the sources at hand; where needed it is modelled from the spec
  and marked as such in the doc comments.

Machine integers of the source (uint16 ports, int64 shm size) are modelled as
`Nat`: none of the properties below exercises overflow.
-/

namespace config

/-- Room configuration struct from internal/config. Defaults are the flag
defaults (epr "59000-59999", traefik domain "neko.lan", entrypoint
"web-secure", certresolver "lets-encrypt", network "traefik"). -/
structure Room where
  NAT1To1IPs : List String := []
  EphemeralMin : Nat := 59000
  EphemeralMax : Nat := 59999
  TraefikDomain : String := "neko.lan"
  TraefikEntrypoint : String := "web-secure"
  TraefikCertresolver : String := "lets-encrypt"
  TraefikNetwork : String := "traefik"
  deriving Repr, DecidableEq

end config

/-- Modelled from the spec: types.RoomResources (the types package is not
among the sources); `ShmSize` is the shared-memory size in bytes. -/
structure RoomResources where
  ShmSize : Nat := 0
  deriving Repr, DecidableEq

/-- Modelled from the spec: types.RoomSettings (the types package is not
among the sources); fields named in the spec and in the literal built by
roomCreate: `MaxConnections` and `Resources`. Go zero values as defaults. -/
structure RoomSettings where
  MaxConnections : Nat := 0
  Resources : RoomResources := {}
  deriving Repr, DecidableEq

/-- Modelled from the spec: a `{start, end}` pair of port numbers. -/
structure PortRange where
  startPort : Nat := 0
  endPort : Nat := 0
  deriving Repr, DecidableEq

/-- Modelled from the spec: types.RoomData (the types package is not among
the sources) combines a unit identifier, the `RoomSettings` that produced it,
a `Running` boolean and the assigned port range. Defaults are Go zero values,
which is what a Go struct literal leaves in every field it does not mention. -/
structure RoomData where
  id : String := ""
  roomSettings : RoomSettings := {}
  running : Bool := false
  portRange : PortRange := {}
  deriving Repr, DecidableEq

/-- Error kinds crossing the manager boundary. `notFound` stands for
types.ErrRoomNotFound (the sentinel the transport maps to 404); `generic` for
an fmt.Errorf error with the given message; `runtime` for an error coming from
the docker client itself. -/
inductive RoomErr where
  | notFound
  | generic (msg : String)
  | runtime (msg : String)
  deriving Repr, DecidableEq

instance {ε α : Type} [DecidableEq ε] [DecidableEq α] : DecidableEq (Except ε α) :=
  fun a b =>
    match a, b with
    | .error e, .error f =>
      if h : e = f then .isTrue (by rw [h])
      else .isFalse (by intro hh; injection hh; contradiction)
    | .error _, .ok _ => .isFalse (by intro hh; cases hh)
    | .ok _, .error _ => .isFalse (by intro hh; cases hh)
    | .ok x, .ok y =>
      if h : x = y then .isTrue (by rw [h])
      else .isFalse (by intro hh; injection hh; contradiction)

/-- Status code mapping used by every read handler in internal/api/rooms.go:
errors.Is(err, types.ErrRoomNotFound) is answered with 404, anything else
with 500. -/
def errStatus : RoomErr → Nat
  | .notFound => 404
  | .generic _ => 500
  | .runtime _ => 500

/-- One managed unit of the container runtime, with the parts of
container.Config / container.HostConfig / networking the manager sets. -/
structure Container where
  id : String
  labels : List (String × String)
  exposedPorts : List String
  portBindings : List (String × String)
  running : Bool
  shmSize : Nat
  capAdd : List String
  restartPolicy : String
  network : String
  deriving Repr, DecidableEq

/-- State of the container runtime: the full unit list, engine-owned or not. -/
structure DockerState where
  containers : List Container
  deriving Repr, DecidableEq

def lookupLabel (labels : List (String × String)) (key : String) : Option String :=
  (labels.find? (fun kv => kv.1 == key)).map (fun kv => kv.2)

namespace room

def nekoImage : String := "m1k1o/neko:latest"

def frontendPort : Nat := 8080

def labelCanary : String := "m1k1o-neko-rooms"

def canaryKey : String := "m1k1o.neko_rooms.canary"

def eprKey : String := "m1k1o.neko_rooms.epr"

/-- True when the unit carries the ownership canary label with the canary
value, exactly the check of listContainers and inspectContainer. -/
def hasCanary (c : Container) : Bool :=
  match lookupLabel c.labels canaryKey with
  | some v => v == labelCanary
  | none => false

/-- listContainers: docker ContainerList filtered down to units carrying the
canary label. -/
def listContainers (s : DockerState) : List Container :=
  s.containers.filter hasCanary

def ownershipErrMsg : String := "This container does not belong to neko_rooms."

/-- inspectContainer: docker ContainerInspectWithRaw by id, then the canary
check; a unit the runtime recognizes but that lacks the canary is answered
with the generic fmt.Errorf ownership error. -/
def inspectContainer (s : DockerState) (id : String) : Except RoomErr Container :=
  match s.containers.find? (fun c => c.id == id) with
  | none => .error (.runtime "No such container")
  | some c =>
    if hasCanary c then .ok c
    else .error (.generic ownershipErrMsg)

/-- List of the room manager: every owned container mapped to a RoomData
literal that sets only the ID field. -/
def ListRooms (s : DockerState) : List RoomData :=
  (listContainers s).map (fun c => { id := c.id })

/-- Get of the room manager: inspect (ownership check included), then a
RoomData literal carrying the id and an empty RoomSettings. -/
def Get (s : DockerState) (id : String) : Except RoomErr RoomData :=
  match inspectContainer s id with
  | .error e => .error e
  | .ok _ => .ok { id := id, roomSettings := {} }

/-- Update of the room manager: inspect (ownership check), then return with
no further runtime call; the state is handed back untouched. -/
def Update (s : DockerState) (id : String) (settings : RoomSettings) :
    Except RoomErr DockerState :=
  match inspectContainer s id with
  | .error e => .error e
  | .ok _ => .ok s

/-- The fixed values Create uses for the path segment and the port range. -/
def pathName : String := "foobar"

def eprStart : Nat := 52135

def eprEnd : Nat := 52145

def containerName : String := "neko-room-" ++ pathName

/-- The ports eprStart..eprEnd, the loop range of Create. -/
def eprPorts : List Nat :=
  (List.range (eprEnd + 1 - eprStart)).map (fun p => p + eprStart)

/-- Exposed-port set built by Create: the frontend port plus every port of
the range, all with the "/udp" suffix the source formats. -/
def exposedPortsList : List String :=
  (toString frontendPort ++ "/udp") :: eprPorts.map (fun p => toString p ++ "/udp")

/-- Port bindings built by Create: each range port bound to the identical
host port (host IP 0.0.0.0 in the source, elided here). -/
def portBindingsList : List (String × String) :=
  eprPorts.map (fun p => (toString p ++ "/udp", toString p))

/-- Label map built by Create: canary, the epr range encoded "start-end", and
the traefik routing rules; TLS rules only when a certresolver is configured. -/
def createLabels (cfg : config.Room) : List (String × String) :=
  [ (canaryKey, labelCanary),
    (eprKey, toString eprStart ++ "-" ++ toString eprEnd),
    ("traefik.enable", "true"),
    ("traefik.http.services." ++ containerName ++ "-frontend.loadbalancer.server.port",
      toString frontendPort),
    ("traefik.http.routers." ++ containerName ++ ".entrypoints", cfg.TraefikEntrypoint),
    ("traefik.http.routers." ++ containerName ++ ".rule",
      "Host(`" ++ cfg.TraefikDomain ++ "`) && PathPrefix(`/" ++ pathName ++ "`)"),
    ("traefik.http.middlewares." ++ containerName ++ "-rdr.redirectregex.regex",
      "/" ++ pathName ++ "$$"),
    ("traefik.http.middlewares." ++ containerName ++ "-rdr.redirectregex.replacement",
      "/" ++ pathName ++ "/"),
    ("traefik.http.middlewares." ++ containerName ++ "-prf.stripprefix.prefixes",
      "/" ++ pathName ++ "/"),
    ("traefik.http.routers." ++ containerName ++ ".middlewares",
      containerName ++ "-rdr," ++ containerName ++ "-prf") ]
  ++ (if cfg.TraefikCertresolver != "" then
        [ ("traefik.http.routers." ++ containerName ++ ".tls", "true"),
          ("traefik.http.routers." ++ containerName ++ ".tls.certresolver",
            cfg.TraefikCertresolver) ]
      else [])

/-- ContainerStart: mark the unit with the given id running. -/
def startContainer (s : DockerState) (id : String) : DockerState :=
  ⟨s.containers.map (fun c => if c.id == id then { c with running := true } else c)⟩

/-- Create of the room manager, success path: build the unit spec (fixed path
segment and port range, labels of `createLabels`, hardcoded shm size
2 * 10e9 = 20000000000, capability SYS_ADMIN, restart policy always, traefik
network attachment), have the runtime create the unit — `newId` is the id the
runtime assigns — and then immediately start it; the returned RoomData literal
sets only ID and RoomSettings. -/
def Create (cfg : config.Room) (s : DockerState) (newId : String)
    (settings : RoomSettings) : DockerState × RoomData :=
  let c : Container :=
    { id := newId
      labels := createLabels cfg
      exposedPorts := exposedPortsList
      portBindings := portBindingsList
      running := false
      shmSize := 20000000000
      capAdd := ["SYS_ADMIN"]
      restartPolicy := "always"
      network := cfg.TraefikNetwork }
  let s1 : DockerState := ⟨s.containers ++ [c]⟩
  let s2 := startContainer s1 newId
  (s2, { id := newId, roomSettings := settings })

end room

/-- A digit character to its value. -/
def digitVal (c : Char) : Option Nat :=
  if '0' ≤ c ∧ c ≤ '9' then some (c.toNat - '0'.toNat) else none

/-- Decimal reading of a character list (observation helper for the
label-encoded port range). -/
def natOfChars (cs : List Char) : Option Nat :=
  cs.foldl
    (fun acc c =>
      match acc, digitVal c with
      | some a, some d => some (a * 10 + d)
      | _, _ => none)
    (some 0)

/-- Split a character list at its first dash. -/
def splitFirstDash : List Char → Option (List Char × List Char)
  | [] => none
  | c :: rest =>
    if c = '-' then some ([], rest)
    else
      match splitFirstDash rest with
      | some (a, b) => some (c :: a, b)
      | none => none

/-- Decode a "start-end" port-range string, the label format the spec fixes. -/
def parseEpr (s : String) : Option (Nat × Nat) :=
  match splitFirstDash s.toList with
  | some (a, b) =>
    match natOfChars a, natOfChars b with
    | some x, some y => some (x, y)
    | _, _ => none
  | none => none

/-- The port range a unit claims, decoded from its epr label. -/
def containerRange (c : Container) : Option (Nat × Nat) :=
  match lookupLabel c.labels room.eprKey with
  | some s => parseEpr s
  | none => none

/-- Two closed ranges are disjoint when one ends before the other starts. -/
def rangesDisjoint (a b : Nat × Nat) : Bool :=
  decide (a.2 < b.1) || decide (b.2 < a.1)

/-- Character-wise ASCII lower-casing, the effect of strings.ToLower on the
ASCII query keys at hand. -/
def lowerStr (s : String) : String := String.mk (s.toList.map Char.toLower)

namespace api

/-- Modelled from the spec: room.CheckLabelKey, the label-key validator
(not among the sources); a key is valid when every character lies in
the class a–z, 0–9, dot or dash. -/
def CheckLabelKey (key : String) : Bool :=
  key.toList.all (fun c =>
    ('a' ≤ c && c ≤ 'z') || ('0' ≤ c && c ≤ '9') || c == '.' || c == '-')

/-- The query-parameter loop of roomsList: each key is lower-cased, then
validated; the first key whose lower-cased form fails the validator aborts
with status 400, before the labels map is completed. -/
def buildLabelsMap : List (String × String) → Except Nat (List (String × String))
  | [] => .ok []
  | (k, v) :: rest =>
    let key := lowerStr k
    if CheckLabelKey key then
      match buildLabelsMap rest with
      | .ok m => .ok ((key, v) :: m)
      | .error e => .error e
    else .error 400

/-- roomsList handler: build the labels map from the query string; only when
every key passed does the handler reach the runtime-backed List call (the
rooms.List of the handler resolves to the room manager; the filter itself
belongs to the manager missing from the sources and the filtering step is
not modelled). An error carries the http status written before any runtime
call. -/
def roomsList (s : DockerState) (query : List (String × String)) :
    Except Nat (List RoomData) :=
  match buildLabelsMap query with
  | .error e => .error e
  | .ok _ => .ok (room.ListRooms s)

/-- roomGetEntry handler status over the room manager Get available in the
sources: 200 on success, otherwise the errStatus mapping (404 only for
types.ErrRoomNotFound). -/
def roomGetEntryStatus (s : DockerState) (id : String) : Nat :=
  match room.Get s id with
  | .ok _ => 200
  | .error e => errStatus e

/-- Partial JSON override of RoomResources: a field is `none` when the body
does not mention it. -/
structure RoomResourcesOverride where
  ShmSize : Option Nat := none
  deriving Repr, DecidableEq

/-- Partial JSON override of RoomSettings: a field is `none` when the body
does not mention it. -/
structure RoomSettingsOverride where
  MaxConnections : Option Nat := none
  Resources : Option RoomResourcesOverride := none
  deriving Repr, DecidableEq

/-- Merge of encoding/json Decode into an existing RoomResources value:
fields present in the body overwrite, absent fields keep the prior value. -/
def mergeResources (r : RoomResources) (ov : RoomResourcesOverride) : RoomResources :=
  { ShmSize := ov.ShmSize.getD r.ShmSize }

/-- Merge of encoding/json Decode into an existing RoomSettings value:
fields present in the body overwrite, absent fields keep the prior value;
a present Resources object merges field-wise into the prior Resources. -/
def mergeSettings (st : RoomSettings) (ov : RoomSettingsOverride) : RoomSettings :=
  { MaxConnections := ov.MaxConnections.getD st.MaxConnections
    Resources :=
      match ov.Resources with
      | none => st.Resources
      | some rov => mergeResources st.Resources rov }

/-- A request body as the json decoder sees it: empty (Decode returns io.EOF
and leaves the target untouched), malformed JSON, or a valid object taken as
a partial override. -/
inductive ReqBody where
  | empty
  | malformed
  | valid (ov : RoomSettingsOverride)
  deriving Repr, DecidableEq

/-- Decode error kinds distinguished by the handlers: io.EOF versus any
other decode failure. -/
inductive DecodeErr where
  | eof
  | malformed
  deriving Repr, DecidableEq

/-- json.NewDecoder(body).Decode(&base): empty input yields io.EOF with the
target untouched; malformed input yields another decode error; a valid object
merges into the target. -/
def decodeSettings (base : RoomSettings) : ReqBody → Except DecodeErr RoomSettings
  | .empty => .error .eof
  | .malformed => .error .malformed
  | .valid ov => .ok (mergeSettings base ov)

/-- Modelled from the spec: one room of the manager consumed by
internal/api/rooms.go (that manager is not among the sources). The runtime is
the only store, so a room is its id, its Running flag and the stored
RoomSettings (label-decoded on read). -/
structure ApiRoom where
  id : String
  running : Bool
  settings : RoomSettings
  deriving Repr, DecidableEq

/-- Modelled from the spec: the owned-unit set the api-level manager reads
and mutates. -/
structure ApiState where
  rooms : List ApiRoom
  deriving Repr, DecidableEq

def apiFind (s : ApiState) (id : String) : Option ApiRoom :=
  s.rooms.find? (fun r => r.id == id)

/-- Modelled from the spec: GetEntry, a read-only projection; NotFound when
the id is absent or unowned, otherwise the RoomData view with the stored
settings and the live Running flag. -/
def GetEntry (s : ApiState) (id : String) : Except RoomErr RoomData :=
  match apiFind s id with
  | none => .error .notFound
  | some r => .ok { id := r.id, roomSettings := r.settings, running := r.running }

/-- Modelled from the spec: GetSettings, the stored settings of an owned
room, NotFound otherwise. -/
def GetSettings (s : ApiState) (id : String) : Except RoomErr RoomSettings :=
  match apiFind s id with
  | none => .error .notFound
  | some r => .ok r.settings

/-- Modelled from the spec: Create of the api-level manager validates and
creates the unit from the settings and returns its id without starting it
(the new room is not Running). -/
def CreateRoom (s : ApiState) (freshId : String) (st : RoomSettings) :
    ApiState × String :=
  (⟨s.rooms ++ [{ id := freshId, running := false, settings := st }]⟩, freshId)

/-- Modelled from the spec: Start requires the unit to exist and be owned and
marks it running; idempotent when already running. -/
def StartRoom (s : ApiState) (id : String) : Except RoomErr ApiState :=
  match apiFind s id with
  | none => .error .notFound
  | some _ =>
    .ok ⟨s.rooms.map (fun r => if r.id == id then { r with running := true } else r)⟩

/-- Modelled from the spec: Remove stops and deletes an owned unit; an absent
or unowned id is NotFound. -/
def RemoveRoom (s : ApiState) (id : String) : Except RoomErr ApiState :=
  match apiFind s id with
  | none => .error .notFound
  | some _ => .ok ⟨s.rooms.filter (fun r => !(r.id == id))⟩

/-- Outcome of an http handler: the status written, the runtime state after
the call, and the encoded response when one was written. -/
structure HttpResp where
  status : Nat
  state : ApiState
  data : Option RoomData
  deriving Repr, DecidableEq

/-- The default request value of roomCreate before decoding:
MaxConnections 10 and ShmSize 2 * 1e9. -/
def defaultCreateSettings : RoomSettings :=
  { MaxConnections := 10, Resources := { ShmSize := 2000000000 } }

/-- roomCreate handler: decode the body over the default settings — any
decode error, io.EOF included, is answered with 400 — then Create, Start,
GetEntry. `freshId` is the id the runtime assigns to the new unit. -/
def roomCreate (s : ApiState) (body : ReqBody) (freshId : String) : HttpResp :=
  match decodeSettings defaultCreateSettings body with
  | .error _ => { status := 400, state := s, data := none }
  | .ok request =>
    let created := CreateRoom s freshId request
    match StartRoom created.1 created.2 with
    | .error _ => { status := 500, state := created.1, data := none }
    | .ok s2 =>
      match GetEntry s2 created.2 with
      | .error _ => { status := 500, state := s2, data := none }
      | .ok resp => { status := 200, state := s2, data := some resp }

/-- Tail of roomRecreate after the body was decoded: Remove the old unit,
Create the new one from the resulting settings, Start it only when the old
entry was Running, then GetEntry it for the response. -/
def recreateRest (s : ApiState) (roomId : String) (entry : RoomData)
    (settings : RoomSettings) (freshId : String) : HttpResp :=
  match RemoveRoom s roomId with
  | .error _ => { status := 500, state := s, data := none }
  | .ok s1 =>
    let created := CreateRoom s1 freshId settings
    match (if entry.running then StartRoom created.1 created.2 else .ok created.1) with
    | .error _ => { status := 500, state := created.1, data := none }
    | .ok s3 =>
      match GetEntry s3 created.2 with
      | .error _ => { status := 500, state := s3, data := none }
      | .ok resp => { status := 200, state := s3, data := some resp }

/-- roomRecreate handler: GetEntry (errStatus mapping on failure),
GetSettings (500 on failure), decode the optional body over the stored
settings — io.EOF is explicitly ignored and the stored settings kept, any
other decode error is 400 — then remove, create, conditionally start,
re-read. -/
def roomRecreate (s : ApiState) (roomId : String) (body : ReqBody)
    (freshId : String) : HttpResp :=
  match GetEntry s roomId with
  | .error e => { status := errStatus e, state := s, data := none }
  | .ok entry =>
    match GetSettings s roomId with
    | .error _ => { status := 500, state := s, data := none }
    | .ok settings =>
      match decodeSettings settings body with
      | .error .malformed => { status := 400, state := s, data := none }
      | .error .eof => recreateRest s roomId entry settings freshId
      | .ok merged => recreateRest s roomId entry merged freshId

end api

/-- A default-configured engine, for the concrete evaluations below. -/
def cfg0 : config.Room := {}

/-- Settings with the roomCreate defaults, for the concrete evaluations. -/
def demoSettings : RoomSettings :=
  { MaxConnections := 10, Resources := { ShmSize := 2000000000 } }

example : room.eprPorts.length = 11 := by decide

example : parseEpr "52135-52145" = some (52135, 52145) := by decide

/-- A unit the runtime recognizes but that carries no labels at all: it does
not belong to the engine. -/
def strayContainer : Container :=
  { id := "c1", labels := [], exposedPorts := [], portBindings := [],
    running := true, shmSize := 0, capAdd := [], restartPolicy := "", network := "" }

/-- An engine-owned unit (canary label present) that is currently running and
carries the label-encoded port range. -/
def ownedRunning : Container :=
  { id := "cr",
    labels := [(room.canaryKey, room.labelCanary), (room.eprKey, "52135-52145")],
    exposedPorts := [], portBindings := [], running := true,
    shmSize := 20000000000, capAdd := [], restartPolicy := "always",
    network := "traefik" }

/-- The runtime state after one Create on an empty runtime. -/
def demoState1 : DockerState := (room.Create cfg0 ⟨[]⟩ "r1" demoSettings).1

/-- The runtime state after a second Create. -/
def demoState2 : DockerState := (room.Create cfg0 demoState1 "r2" demoSettings).1

/-- Generic list fact: a find over a list extended by one element lands on
that element when the predicate rejects everything before it. -/
theorem find_append_singleton {α : Type} (q : α → Bool) (l : List α) (a : α)
    (h : ∀ x ∈ l, q x = false) (ha : q a = true) :
    (l ++ [a]).find? q = some a := by
  induction l with
  | nil =>
    rw [List.nil_append]
    exact List.find?_cons_of_pos _ (by simp [ha])
  | cons b t ih =>
    have hb : q b = false := h b (List.mem_cons_self b t)
    have ht : ∀ x ∈ t, q x = false := fun x hx => h x (List.mem_cons_of_mem b hx)
    rw [List.cons_append, List.find?_cons_of_neg _ (by simp [hb])]
    exact ih ht

/-- After a Create with a runtime-fresh id, looking the new id up in the
runtime finds exactly the unit spec Create issued, already started. -/
theorem room_create_find (cfg : config.Room) (s : DockerState) (newId : String)
    (st : RoomSettings)
    (hfresh : ∀ c ∈ s.containers, (c.id == newId) = false) :
    (room.Create cfg s newId st).1.containers.find? (fun c => c.id == newId) =
      some { id := newId, labels := room.createLabels cfg,
             exposedPorts := room.exposedPortsList,
             portBindings := room.portBindingsList,
             running := true, shmSize := 20000000000,
             capAdd := ["SYS_ADMIN"], restartPolicy := "always",
             network := cfg.TraefikNetwork } := by
  unfold room.Create room.startContainer
  simp only [List.map_append, List.map_cons, List.map_nil]
  have hq : ∀ x ∈ s.containers.map
      (fun c => if c.id == newId then { c with running := true } else c),
      (x.id == newId) = false := by
    intro x hx
    obtain ⟨y, hy, rfl⟩ := List.mem_map.mp hx
    have hid : (if y.id == newId then { y with running := true } else y).id = y.id := by
      split <;> rfl
    rw [hid]
    exact hfresh y hy
  have hcond : (newId == newId) = true := by simp
  rw [if_pos hcond]
  exact find_append_singleton (fun c : Container => c.id == newId) _ _ hq (by simp)

/-- C1: the spec requires Create to scan the configured ephemeral pool for
the first free sub-range so that live rooms hold pairwise disjoint port
ranges, failing with PoolExhausted when none is left. The code instead
assigns the fixed range 52135-52145 to every room: after two Creates both
live, owned units carry the identical label-encoded range, which is not
disjoint from itself, and the configured pool (default 59000-59999) is never
consulted. -/
theorem create_fixed_range_not_disjoint :
    demoState2.containers.map containerRange
      = [some (52135, 52145), some (52135, 52145)] ∧
    demoState2.containers.all (fun c => c.running && room.hasCanary c) = true ∧
    rangesDisjoint (52135, 52145) (52135, 52145) = false ∧
    cfg0.EphemeralMin = 59000 ∧ cfg0.EphemeralMax = 59999 := by decide

/-- C2 counterexample: a unit the runtime recognizes ("c1") but that lacks
the canary label is answered by Get with the generic fmt.Errorf ownership
error, not with the NotFound sentinel, and the transport maps it to 500,
not 404. -/
theorem get_unowned_counterexample :
    room.Get ⟨[strayContainer]⟩ "c1" = .error (.generic room.ownershipErrMsg) ∧
    room.Get ⟨[strayContainer]⟩ "c1" ≠ .error .notFound ∧
    api.roomGetEntryStatus ⟨[strayContainer]⟩ "c1" = 500 ∧
    api.roomGetEntryStatus ⟨[strayContainer]⟩ "c1" ≠ 404 := by decide

/-- C2 amended: for every unit id the runtime recognizes but whose unit lacks
the ownership canary label, Get fails with the generic ownership error
("This container does not belong to neko_rooms."), which the transport maps
to 500, not with the NotFound error that maps to 404. -/
theorem get_unowned_generic_500 (s : DockerState) (id : String) (c : Container)
    (hfind : s.containers.find? (fun x => x.id == id) = some c)
    (hcan : room.hasCanary c = false) :
    room.Get s id = .error (.generic room.ownershipErrMsg) ∧
    api.roomGetEntryStatus s id = 500 := by
  have hins : room.inspectContainer s id = .error (.generic room.ownershipErrMsg) := by
    unfold room.inspectContainer
    rw [hfind]
    simp [hcan]
  refine ⟨?_, ?_⟩
  · unfold room.Get
    rw [hins]
  · unfold api.roomGetEntryStatus room.Get
    rw [hins]
    rfl

/-- C2 witness: the amended statement evaluated on the concrete one-unit
runtime holding only the canary-less container. -/
theorem get_unowned_generic_500_witness :
    room.Get ⟨[strayContainer]⟩ "c1" = .error (.generic room.ownershipErrMsg) ∧
    api.roomGetEntryStatus ⟨[strayContainer]⟩ "c1" = 500 :=
  get_unowned_generic_500 ⟨[strayContainer]⟩ "c1" strayContainer (by decide) (by decide)

/-- C3 counterexample: immediately after a successful Create on an empty
runtime, the single unit the runtime holds is running — Create issued
ContainerStart itself — contradicting the claim that the new unit is in the
Created, not started, state. -/
theorem create_starts_counterexample :
    demoState1.containers.map (fun c => c.running) = [true] := by decide

/-- C3 amended: for every valid settings value, Create creates the runtime
unit and immediately starts it: right after a successful Create the new unit
is Running, not merely Created. -/
theorem create_starts_unit (cfg : config.Room) (s : DockerState) (newId : String)
    (st : RoomSettings)
    (hfresh : ∀ c ∈ s.containers, (c.id == newId) = false) :
    ((room.Create cfg s newId st).1.containers.find? (fun c => c.id == newId)).map
      (fun c => c.running) = some true := by
  rw [room_create_find cfg s newId st hfresh]
  rfl

/-- C3 witness: the amended statement evaluated on the empty runtime. -/
theorem create_starts_unit_witness :
    ((room.Create cfg0 ⟨[]⟩ "r1" demoSettings).1.containers.find?
      (fun c => c.id == "r1")).map (fun c => c.running) = some true :=
  create_starts_unit cfg0 ⟨[]⟩ "r1" demoSettings (by intro c hc; cases hc)

/-- C6 counterexample: the unit created from settings whose Resources carry
the default ShmSize 2e9 ends up with shared-memory size 2 * 10e9 =
20000000000 bytes, so the resource limit is neither copied from the settings
nor equal to the documented default. -/
theorem create_shm_counterexample :
    demoState1.containers.map (fun c => c.shmSize) = [20000000000] ∧
    demoSettings.Resources.ShmSize = 2000000000 ∧
    (20000000000 : Nat) ≠ 2000000000 := by decide

/-- C6 amended: for every settings value the unit specification produced by
Create carries the fixed shared-memory size 2 * 10e9 = 2 x 10^10 bytes,
regardless of settings.Resources.ShmSize; the default the create request
body receives for ShmSize when it omits the field is 2 x 10^9 bytes. -/
theorem create_shm_fixed (cfg : config.Room) (s : DockerState) (newId : String)
    (st : RoomSettings)
    (hfresh : ∀ c ∈ s.containers, (c.id == newId) = false) :
    (((room.Create cfg s newId st).1.containers.find? (fun c => c.id == newId)).map
      (fun c => c.shmSize) = some 20000000000) ∧
    api.defaultCreateSettings.Resources.ShmSize = 2000000000 := by
  refine ⟨?_, rfl⟩
  rw [room_create_find cfg s newId st hfresh]
  rfl

/-- C6 witness: the amended statement evaluated on the empty runtime with the
default settings. -/
theorem create_shm_fixed_witness :
    (((room.Create cfg0 ⟨[]⟩ "r1" demoSettings).1.containers.find?
      (fun c => c.id == "r1")).map (fun c => c.shmSize) = some 20000000000) ∧
    api.defaultCreateSettings.Resources.ShmSize = 2000000000 :=
  create_shm_fixed cfg0 ⟨[]⟩ "r1" demoSettings (by intro c hc; cases hc)

/-- C7 counterexample: on a runtime holding one owned, running unit whose
labels carry the port range, Get returns a RoomData with only the id set —
its Running field is false although the unit runs, its settings are the zero
value, and its port range is the zero value although the label decodes to
(52135, 52145); List likewise returns the id-only view. -/
theorem reads_idonly_counterexample :
    room.Get ⟨[ownedRunning]⟩ "cr" = .ok { id := "cr" } ∧
    ({ id := "cr" } : RoomData).running = false ∧
    ownedRunning.running = true ∧
    room.ListRooms ⟨[ownedRunning]⟩ = [{ id := "cr" }] ∧
    containerRange ownedRunning = some (52135, 52145) ∧
    ({ id := "cr" } : RoomData).portRange = { startPort := 0, endPort := 0 } := by
  decide

/-- C7 amended: every read constructs a RoomData that carries only the unit
identifier: Get returns the id together with an empty RoomSettings and
zero-valued Running and port range, and every element of List equals the
RoomData holding nothing but its id; neither settings, Running nor the port
range are decoded from the unit. -/
theorem reads_return_id_only (s : DockerState) (id : String) (c : Container)
    (hfind : s.containers.find? (fun x => x.id == id) = some c)
    (hcan : room.hasCanary c = true) :
    room.Get s id = .ok { id := id } ∧
    ∀ d ∈ room.ListRooms s, d = { id := d.id } := by
  refine ⟨?_, ?_⟩
  · unfold room.Get room.inspectContainer
    rw [hfind]
    simp [hcan]
  · intro d hd
    obtain ⟨x, hx, rfl⟩ := List.mem_map.mp hd
    rfl

/-- C7 witness: the amended statement evaluated on the one-unit runtime
holding the owned running container. -/
theorem reads_return_id_only_witness :
    room.Get ⟨[ownedRunning]⟩ "cr" = .ok { id := "cr" } :=
  (reads_return_id_only ⟨[ownedRunning]⟩ "cr" ownedRunning (by decide) (by decide)).1

/-- C10: for every owned unit id and every settings value, Update returns
success after the ownership inspection and hands the runtime state back
entirely unchanged: no mutating runtime call is made and none of the supplied
settings is applied. -/
theorem update_is_noop (s : DockerState) (id : String) (settings : RoomSettings)
    (c : Container)
    (hfind : s.containers.find? (fun x => x.id == id) = some c)
    (hcan : room.hasCanary c = true) :
    room.Update s id settings = .ok s := by
  unfold room.Update room.inspectContainer
  rw [hfind]
  simp [hcan]

/-- C10 witness: Update on the owned running unit with the default settings
returns success with the state unchanged. -/
theorem update_is_noop_witness :
    room.Update ⟨[ownedRunning]⟩ "cr" demoSettings = .ok ⟨[ownedRunning]⟩ :=
  update_is_noop ⟨[ownedRunning]⟩ "cr" demoSettings ownedRunning (by decide) (by decide)



/-- Id preservation of the running-flag update StartRoom applies. -/
theorem startRoom_id (fid : String) (x : api.ApiRoom) :
    (if x.id == fid then { x with running := true } else x).id = x.id := by
  split <;> rfl

/-- The concrete one-room owned state used to evaluate the handlers: one
owned room "old", running, with the default settings stored. -/
def demoApiState : api.ApiState := ⟨[⟨"old", true, demoSettings⟩]⟩

/-- After the remove-create-start tail of roomRecreate on a state where the
old room exists and the fresh id is new to the runtime, the handler answers
200 and the runtime holds the fresh room with exactly the settings handed in,
running exactly when the old entry was running. -/
theorem recreateRest_spec (s : api.ApiState) (roomId freshId : String)
    (entry : RoomData) (settings : RoomSettings) (r : api.ApiRoom)
    (hfind : api.apiFind s roomId = some r)
    (hfresh : ∀ x ∈ s.rooms, (x.id == freshId) = false) :
    (api.recreateRest s roomId entry settings freshId).status = 200 ∧
    (api.recreateRest s roomId entry settings freshId).state.rooms.find?
        (fun x => x.id == freshId) =
      some { id := freshId, running := entry.running, settings := settings } := by
  have hfiltfresh : ∀ x ∈ s.rooms.filter
      (fun y : api.ApiRoom => !(y.id == roomId)), (x.id == freshId) = false :=
    fun x hx => hfresh x (List.mem_of_mem_filter hx)
  have hfindnr :
      (s.rooms.filter (fun y : api.ApiRoom => !(y.id == roomId)) ++
          [({ id := freshId, running := false, settings := settings } : api.ApiRoom)]).find?
        (fun x : api.ApiRoom => x.id == freshId) =
      some { id := freshId, running := false, settings := settings } :=
    find_append_singleton _ _ _ hfiltfresh (by simp)
  have hmap :
      ((s.rooms.filter (fun y : api.ApiRoom => !(y.id == roomId)) ++
          [({ id := freshId, running := false, settings := settings } : api.ApiRoom)]).map
        (fun x : api.ApiRoom =>
          if x.id == freshId then { x with running := true } else x)).find?
        (fun x : api.ApiRoom => x.id == freshId) =
      some { id := freshId, running := true, settings := settings } := by
    have h1 : ∀ x ∈ (s.rooms.filter
        (fun y : api.ApiRoom => !(y.id == roomId))).map
        (fun x : api.ApiRoom =>
          if x.id == freshId then { x with running := true } else x),
        (x.id == freshId) = false := by
      intro x hx
      obtain ⟨y, hy, rfl⟩ := List.mem_map.mp hx
      rw [startRoom_id]
      exact hfiltfresh y hy
    have hsing : [({ id := freshId, running := false, settings := settings } : api.ApiRoom)].map
        (fun x : api.ApiRoom => if x.id == freshId then { x with running := true } else x) =
        [({ id := freshId, running := true, settings := settings } : api.ApiRoom)] := by
      simp
    rw [List.map_append, hsing]
    exact find_append_singleton _ _ _ h1 (by simp)
  have hrem : api.RemoveRoom s roomId =
      .ok ⟨s.rooms.filter (fun y : api.ApiRoom => !(y.id == roomId))⟩ := by
    unfold api.RemoveRoom
    rw [hfind]
  have hstart : api.StartRoom
      ⟨s.rooms.filter (fun y : api.ApiRoom => !(y.id == roomId)) ++
        [({ id := freshId, running := false, settings := settings } : api.ApiRoom)]⟩ freshId =
      .ok ⟨(s.rooms.filter (fun y : api.ApiRoom => !(y.id == roomId)) ++
        [({ id := freshId, running := false, settings := settings } : api.ApiRoom)]).map
          (fun x : api.ApiRoom =>
            if x.id == freshId then { x with running := true } else x)⟩ := by
    unfold api.StartRoom api.apiFind
    dsimp only
    rw [hfindnr]
  have hget2 : api.GetEntry
      ⟨s.rooms.filter (fun y : api.ApiRoom => !(y.id == roomId)) ++
        [({ id := freshId, running := false, settings := settings } : api.ApiRoom)]⟩ freshId =
      .ok { id := freshId, roomSettings := settings, running := false } := by
    unfold api.GetEntry api.apiFind
    dsimp only
    rw [hfindnr]
  have hget1 : api.GetEntry
      ⟨(s.rooms.filter (fun y : api.ApiRoom => !(y.id == roomId)) ++
        [({ id := freshId, running := false, settings := settings } : api.ApiRoom)]).map
          (fun x : api.ApiRoom =>
            if x.id == freshId then { x with running := true } else x)⟩ freshId =
      .ok { id := freshId, roomSettings := settings, running := true } := by
    unfold api.GetEntry api.apiFind
    dsimp only
    rw [hmap]
  cases hrun : entry.running with
  | false =>
    have hcomp : api.recreateRest s roomId entry settings freshId =
        { status := 200,
          state := ⟨s.rooms.filter (fun y : api.ApiRoom => !(y.id == roomId)) ++
            [({ id := freshId, running := false, settings := settings } : api.ApiRoom)]⟩,
          data := some { id := freshId, roomSettings := settings, running := false } } := by
      simp only [api.recreateRest, api.CreateRoom, hrem, hrun, Bool.false_eq_true,
        if_false, hget2]
    rw [hcomp]
    exact ⟨rfl, hfindnr⟩
  | true =>
    have hcomp : api.recreateRest s roomId entry settings freshId =
        { status := 200,
          state := ⟨(s.rooms.filter (fun y : api.ApiRoom => !(y.id == roomId)) ++
            [({ id := freshId, running := false, settings := settings } : api.ApiRoom)]).map
              (fun x : api.ApiRoom =>
                if x.id == freshId then { x with running := true } else x)⟩,
          data := some { id := freshId, roomSettings := settings, running := true } } := by
      simp only [api.recreateRest, api.CreateRoom, hrem, hrun, eq_self_iff_true,
        if_true, hstart, hget1]
    rw [hcomp]
    exact ⟨rfl, hmap⟩

/-- Reduction of roomRecreate on an owned room: the entry read back is the
stored room, the stored settings are the decode base, an empty body keeps
them (io.EOF ignored) and a valid body merges into them. -/
theorem roomRecreate_reduce (s : api.ApiState) (roomId freshId : String)
    (r : api.ApiRoom) (hfind : api.apiFind s roomId = some r) :
    api.roomRecreate s roomId .empty freshId =
      api.recreateRest s roomId
        { id := r.id, roomSettings := r.settings, running := r.running }
        r.settings freshId ∧
    ∀ ov : api.RoomSettingsOverride,
      api.roomRecreate s roomId (.valid ov) freshId =
        api.recreateRest s roomId
          { id := r.id, roomSettings := r.settings, running := r.running }
          (api.mergeSettings r.settings ov) freshId := by
  have hge : api.GetEntry s roomId =
      .ok { id := r.id, roomSettings := r.settings, running := r.running } := by
    unfold api.GetEntry
    rw [hfind]
  have hgs : api.GetSettings s roomId = .ok r.settings := by
    unfold api.GetSettings
    rw [hfind]
  constructor
  · simp only [api.roomRecreate, hge, hgs, api.decodeSettings]
  · intro ov
    simp only [api.roomRecreate, hge, hgs, api.decodeSettings]

/-- C4: for every owned room, Recreate with no settings override answers 200
and the recreated room is running exactly when the old room was running
before the call: running rooms come back running, stopped rooms come back
created but not started. -/
theorem recreate_preserves_running (s : api.ApiState) (roomId freshId : String)
    (r : api.ApiRoom)
    (hfind : api.apiFind s roomId = some r)
    (hfresh : ∀ x ∈ s.rooms, (x.id == freshId) = false) :
    (api.roomRecreate s roomId .empty freshId).status = 200 ∧
    ((api.roomRecreate s roomId .empty freshId).state.rooms.find?
      (fun x => x.id == freshId)).map (fun x => x.running) = some r.running := by
  have hred := (roomRecreate_reduce s roomId freshId r hfind).1
  have hspec := recreateRest_spec s roomId freshId
    { id := r.id, roomSettings := r.settings, running := r.running }
    r.settings r hfind hfresh
  rw [hred]
  refine ⟨hspec.1, ?_⟩
  rw [hspec.2]
  rfl

/-- C4 witness: recreating the running demo room answers 200 and the new
room is running. -/
theorem recreate_preserves_running_witness :
    (api.roomRecreate demoApiState "old" .empty "new").status = 200 ∧
    ((api.roomRecreate demoApiState "old" .empty "new").state.rooms.find?
      (fun x => x.id == "new")).map (fun x => x.running) = some true :=
  recreate_preserves_running demoApiState "old" "new" ⟨"old", true, demoSettings⟩
    (by decide) (by decide)

/-- C5: the merge of a partial override onto stored settings keeps every
field the body does not mention; in particular, on a room storing
MaxConnections 10 and ShmSize 2e9, Recreate with the body overriding only
MaxConnections to 20 recreates the room with MaxConnections 20 and ShmSize
2e9, and Recreate with no body recreates it with the stored settings
unchanged. -/
theorem recreate_merges_override (s : api.ApiState) (roomId freshId : String)
    (r : api.ApiRoom)
    (hfind : api.apiFind s roomId = some r)
    (hfresh : ∀ x ∈ s.rooms, (x.id == freshId) = false)
    (hstored : r.settings =
      { MaxConnections := 10, Resources := { ShmSize := 2000000000 } }) :
    (∀ st : RoomSettings,
      api.mergeSettings st { MaxConnections := some 20 } =
        { MaxConnections := 20, Resources := st.Resources }) ∧
    ((api.roomRecreate s roomId
        (.valid { MaxConnections := some 20 }) freshId).state.rooms.find?
      (fun x => x.id == freshId)).map (fun x => x.settings) =
        some { MaxConnections := 20, Resources := { ShmSize := 2000000000 } } ∧
    ((api.roomRecreate s roomId .empty freshId).state.rooms.find?
      (fun x => x.id == freshId)).map (fun x => x.settings) = some r.settings := by
  have hredE := (roomRecreate_reduce s roomId freshId r hfind).1
  have hredV := (roomRecreate_reduce s roomId freshId r hfind).2
    { MaxConnections := some 20 }
  have hspecV := recreateRest_spec s roomId freshId
    { id := r.id, roomSettings := r.settings, running := r.running }
    (api.mergeSettings r.settings { MaxConnections := some 20 }) r hfind hfresh
  have hspecE := recreateRest_spec s roomId freshId
    { id := r.id, roomSettings := r.settings, running := r.running }
    r.settings r hfind hfresh
  refine ⟨fun st => rfl, ?_, ?_⟩
  · rw [hredV, hspecV.2, hstored]
    rfl
  · rw [hredE, hspecE.2]
    rfl

/-- C5 witness: the merged-override recreation evaluated on the demo room
storing the default settings. -/
theorem recreate_merges_override_witness :
    ((api.roomRecreate demoApiState "old"
        (.valid { MaxConnections := some 20 }) "new").state.rooms.find?
      (fun x => x.id == "new")).map (fun x => x.settings) =
        some { MaxConnections := 20, Resources := { ShmSize := 2000000000 } } :=
  (recreate_merges_override demoApiState "old" "new" ⟨"old", true, demoSettings⟩
    (by decide) (by decide) (by decide)).2.1

/-- C9: POST /rooms with an empty body is answered 400 with the state
untouched — the io.EOF decode error is returned although every settings
field has a default — while POST recreate with an empty body succeeds (200),
the io.EOF being explicitly ignored, and recreates the room with the stored
settings. -/
theorem create_empty_rejected_recreate_tolerated (s : api.ApiState)
    (roomId freshId : String) (r : api.ApiRoom)
    (hfind : api.apiFind s roomId = some r)
    (hfresh : ∀ x ∈ s.rooms, (x.id == freshId) = false) :
    (∀ (s2 : api.ApiState) (fid : String),
      (api.roomCreate s2 .empty fid).status = 400 ∧
      (api.roomCreate s2 .empty fid).state = s2) ∧
    (api.roomRecreate s roomId .empty freshId).status = 200 ∧
    ((api.roomRecreate s roomId .empty freshId).state.rooms.find?
      (fun x => x.id == freshId)).map (fun x => x.settings) = some r.settings := by
  have hred := (roomRecreate_reduce s roomId freshId r hfind).1
  have hspec := recreateRest_spec s roomId freshId
    { id := r.id, roomSettings := r.settings, running := r.running }
    r.settings r hfind hfresh
  refine ⟨fun s2 fid => ⟨rfl, rfl⟩, ?_, ?_⟩
  · rw [hred]
    exact hspec.1
  · rw [hred, hspec.2]
    rfl

/-- C9 witness: the empty-body pair of behaviors evaluated on the demo
state. -/
theorem create_empty_rejected_recreate_tolerated_witness :
    (api.roomCreate demoApiState .empty "x").status = 400 ∧
    (api.roomRecreate demoApiState "old" .empty "new").status = 200 := by
  have h := create_empty_rejected_recreate_tolerated demoApiState "old" "new"
    ⟨"old", true, demoSettings⟩ (by decide) (by decide)
  exact ⟨(h.1 demoApiState "x").1, h.2.1⟩

/-- The only status the query-loop ever aborts with is 400. -/
theorem buildLabelsMap_error_code (q : List (String × String)) (e : Nat)
    (h : api.buildLabelsMap q = .error e) : e = 400 := by
  induction q with
  | nil => cases h
  | cons kv rest ih =>
    obtain ⟨k, v⟩ := kv
    simp only [api.buildLabelsMap] at h
    by_cases hk : api.CheckLabelKey (lowerStr k)
    · rw [if_pos hk] at h
      cases hrest : api.buildLabelsMap rest with
      | ok m => rw [hrest] at h; cases h
      | error f =>
        rw [hrest] at h
        injection h with hf
        exact ih (hf ▸ hrest)
    · rw [if_neg hk] at h
      injection h with hf
      exact hf.symm

/-- The query loop aborts with 400 exactly when some query key has a
lower-cased form the validator rejects. -/
theorem buildLabelsMap_error_iff (q : List (String × String)) :
    api.buildLabelsMap q = .error 400 ↔
      ∃ kv ∈ q, api.CheckLabelKey (lowerStr kv.1) = false := by
  induction q with
  | nil => simp [api.buildLabelsMap]
  | cons kv rest ih =>
    obtain ⟨k, v⟩ := kv
    by_cases hk : api.CheckLabelKey (lowerStr k)
    · cases hrest : api.buildLabelsMap rest with
      | ok m =>
        have hnone : ¬ ∃ x ∈ rest, api.CheckLabelKey (lowerStr x.1) = false := by
          intro hex
          have h400 := ih.mpr hex
          rw [hrest] at h400
          cases h400
        constructor
        · intro h
          simp only [api.buildLabelsMap, if_pos hk, hrest] at h
          cases h
        · intro h
          rcases h with ⟨x, hmem, hx⟩
          rcases List.mem_cons.mp hmem with h1 | h2
          · rw [h1] at hx
            rw [hx] at hk
            cases hk
          · exact absurd ⟨x, h2, hx⟩ hnone
      | error f =>
        have hf : f = 400 := buildLabelsMap_error_code rest f hrest
        subst hf
        constructor
        · intro h
          rcases ih.mp hrest with ⟨x, hmem, hx⟩
          exact ⟨x, List.mem_cons_of_mem _ hmem, hx⟩
        · intro h
          simp only [api.buildLabelsMap, if_pos hk, hrest]
        
    · constructor
      · intro h
        exact ⟨(k, v), List.mem_cons_self _ _, by
          simp only [Bool.not_eq_true] at hk
          exact hk⟩
      · intro h
        simp only [api.buildLabelsMap, if_neg hk]

/-- C8 counterexample: the key "A" is rejected by the validator (uppercase),
yet List with the query containing only that key does not fail with 400: the
key is lower-cased to "a" before validation, passes, and the runtime call is
issued (here on the empty runtime, answering the empty list). -/
theorem lowercase_key_accepted_counterexample :
    api.CheckLabelKey "A" = false ∧
    api.roomsList ⟨[]⟩ [("A", "x")] = .ok [] ∧
    api.roomsList ⟨[]⟩ [("A", "x")] ≠ .error 400 := by decide

/-- C8 amended: every query key is lower-cased before validation, and List
fails with 400 — before the labels map is completed and before any runtime
call is issued — exactly when some key has a lower-cased form still outside
[a-z0-9.-]; keys rejected by the validator only for containing uppercase
letters are accepted after lower-casing. -/
theorem roomsList_invalid_label_iff (s : DockerState)
    (q : List (String × String)) :
    api.roomsList s q = .error 400 ↔
      ∃ kv ∈ q, api.CheckLabelKey (lowerStr kv.1) = false := by
  have hmain : api.roomsList s q = .error 400 ↔
      api.buildLabelsMap q = .error 400 := by
    unfold api.roomsList
    cases hb : api.buildLabelsMap q with
    | ok m => simp
    | error e => simp
  rw [hmain]
  exact buildLabelsMap_error_iff q
